import Mathlib

/-!
Verification of the GitHub bounty overlay service.

The development shallowly embeds the escrow contract
(backend/src/contracts/BountyContract.ts), the lifecycle index and query
resolver (backend/src/api/bounty-api.ts, the BountyLookupService), the
output classifier (BountyTopicManager.isBountyLockingScript), and the
orchestration service (BountyService: payBounty, refundExpiredBounty,
cancelBounty) together with the MongoDB store shaped by
backend/src/services/models.ts (the unique index on
(txid, outputIndex, topic)).

Machine integers are modeled as Nat; cryptographic hashes (hash256 over the
serialized output list, hash160 behind pubKey2Addr) are modeled as ideal
collision-free hashes via an injective pairing encoding; signature checking
(this.checkSig, evaluated against the spending transaction) is carried as a
boolean-valued field of the script context, mirroring the external
signature-verifier collaborator.
-/

/-- Status literal written by the insert paths and checked by the services. -/
def strActive : String := "active"

/-- Status literal written by outputSpent and by payBounty. -/
def strCompleted : String := "completed"

/-- Status literal written by refundExpiredBounty. -/
def strExpired : String := "expired"

/-- Status literal written by cancelBounty. -/
def strCanceled : String := "canceled"

/-- The topic used by the bounty overlay, hard-coded in the lookup service. -/
def strTopicBounty : String := "tm_bounty"

/-- One output of a spending transaction: a value in satoshis locked to an
address (the shape produced by Utils.buildPublicKeyHashOutput). -/
structure TxOutput where
  satoshis : Nat
  lockAddr : Nat
deriving DecidableEq

/-- hash256 of the serialized output list of a transaction, modeled as an
ideal (collision-free) hash: an injective encoding via the Nat pairing
function. The contract only compares such hashes for equality. -/
def hash256Outputs : List TxOutput → Nat
| [] => 0
| o :: rest => Nat.pair (Nat.pair o.satoshis o.lockAddr) (hash256Outputs rest) + 1

/-- pubKey2Addr (hash160 of a public key), modeled as an ideal injective
hash via the pairing function. -/
def pubKey2Addr (pk : Nat) : Nat := Nat.pair 160 pk

/-- Utils.buildPublicKeyHashOutput(addr, amount): a P2PKH output paying
amount satoshis to addr. -/
def buildPublicKeyHashOutput (addr amount : Nat) : TxOutput :=
  { satoshis := amount, lockAddr := addr }

/-- The script evaluation context of the contract (this.ctx together with
this.checkSig): the signature verifier for the current spending transaction,
the locked value of the spent UTXO, the hash committing to the spending
transaction's outputs, and the chain time enforced by this.timeLock. -/
structure ScriptContext where
  checkSig : Nat → Nat → Bool
  utxoValue : Nat
  hashOutputs : Nat
  chainTime : Nat

/-- this.timeLock(locktime): true exactly when the chain time enforced by
the spending transaction has reached the locktime. -/
def ScriptContext.timeLock (ctx : ScriptContext) (locktime : Nat) : Bool :=
  decide (locktime ≤ ctx.chainTime)

/-- The immutable parameters of BountyContract (its five @prop fields). -/
structure BountyContract where
  funderAddr : Nat
  issueId : Nat
  repoOwner : Nat
  certifierPubKey : Nat
  deadline : Nat
deriving DecidableEq

/-- BountyContract.paySolver, declared @method(SigHash.ANYONECANPAY_SINGLE):
the conjunction of the four asserts of the source method, in order — solver
signature against the solver-supplied key, owner signature against
repoOwner, certifier signature against certifierPubKey, and the comparison
of the hashed solver payout (the full locked value to the address derived
from the solver's key) against ctx.hashOutputs, which under this sighash
mode commits only to the output at the spending input's index (see
hashOutputsFor). -/
def BountyContract.paySolver (c : BountyContract) (ctx : ScriptContext)
    (solverSig solverPubKey ownerSig certifierSig : Nat) : Bool :=
  ctx.checkSig solverSig solverPubKey &&
  ctx.checkSig ownerSig c.repoOwner &&
  ctx.checkSig certifierSig c.certifierPubKey &&
  (hash256Outputs [buildPublicKeyHashOutput (pubKey2Addr solverPubKey) ctx.utxoValue]
    == ctx.hashOutputs)

/-- BountyContract.refundExpired, using the default SigHash.ALL (under which
ctx.hashOutputs commits to the whole output list): the conjunction of the
four asserts of the source method, in order — the supplied public key hashes
to funderAddr, the funder signature verifies against it, the deadline time
lock has passed, and the outputs-hash commitment to the single refund payout
to funderAddr. -/
def BountyContract.refundExpired (c : BountyContract) (ctx : ScriptContext)
    (funderSig funderPubKey : Nat) : Bool :=
  (pubKey2Addr funderPubKey == c.funderAddr) &&
  ctx.checkSig funderSig funderPubKey &&
  ctx.timeLock c.deadline &&
  (hash256Outputs [buildPublicKeyHashOutput c.funderAddr ctx.utxoValue]
    == ctx.hashOutputs)

/-- BountyContract.cancelBounty, using the default SigHash.ALL (under which
ctx.hashOutputs commits to the whole output list): the conjunction of the
four asserts of the source method, in order — the supplied public key hashes
to funderAddr, the funder signature verifies against it, the owner signature
verifies against repoOwner, and the outputs-hash commitment to the single
refund payout to funderAddr. -/
def BountyContract.cancelBounty (c : BountyContract) (ctx : ScriptContext)
    (funderSig funderPubKey ownerSig : Nat) : Bool :=
  (pubKey2Addr funderPubKey == c.funderAddr) &&
  ctx.checkSig funderSig funderPubKey &&
  ctx.checkSig ownerSig c.repoOwner &&
  (hash256Outputs [buildPublicKeyHashOutput c.funderAddr ctx.utxoValue]
    == ctx.hashOutputs)

/-- The sighash modes named by the contract's @method annotations:
paySolver is @method(SigHash.ANYONECANPAY_SINGLE), while refundExpired and
cancelBounty use the default SigHash.ALL. -/
inductive SigHashMode
| all
| anyonecanpaySingle
deriving DecidableEq

/-- How the ledger computes this.ctx.hashOutputs for the input being
verified, per sighash mode: under ALL the hash commits to the entire
serialized output list of the spending transaction; under
ANYONECANPAY_SINGLE it commits only to the output at the same index as the
spending input, and is a fixed zero value when no output exists at that
index. -/
def hashOutputsFor : SigHashMode → List TxOutput → Nat → Nat
| SigHashMode.all, outs, _ => hash256Outputs outs
| SigHashMode.anyonecanpaySingle, outs, inputIndex =>
    match outs[inputIndex]? with
    | some o => hash256Outputs [o]
    | none => 0

lemma hash256Outputs_injective : Function.Injective hash256Outputs := by
  intro l1 l2 h
  induction l1 generalizing l2 with
  | nil =>
    cases l2 with
    | nil => rfl
    | cons o rest => simp [hash256Outputs] at h
  | cons o rest ih =>
    cases l2 with
    | nil => simp [hash256Outputs] at h
    | cons o2 rest2 =>
      simp only [hash256Outputs, Nat.add_right_cancel_iff] at h
      obtain ⟨h1, h2⟩ := Nat.pair_eq_pair.mp h
      obtain ⟨ha, hb⟩ := Nat.pair_eq_pair.mp h1
      have : o = o2 := by cases o; cases o2; simp_all
      rw [this, ih h2]

/-- Claim C2: refundExpired rejects the spending transaction whenever chain
time is below the deadline, for any signatures supplied, and accepts only
when chain time is at least the deadline, the supplied public key hashes to
funderAddr, and the funder signature verifies against that key. -/
theorem refundExpired_deadline_and_funder_guard (c : BountyContract)
    (ctx : ScriptContext) (funderSig funderPubKey : Nat) :
    (ctx.chainTime < c.deadline →
      c.refundExpired ctx funderSig funderPubKey = false) ∧
    (c.refundExpired ctx funderSig funderPubKey = true →
      c.deadline ≤ ctx.chainTime ∧ pubKey2Addr funderPubKey = c.funderAddr ∧
      ctx.checkSig funderSig funderPubKey = true) := by
  constructor
  · intro hlt
    have htl : ctx.timeLock c.deadline = false := by
      simp [ScriptContext.timeLock]
      omega
    simp [BountyContract.refundExpired, htl]
  · intro hok
    simp only [BountyContract.refundExpired, Bool.and_eq_true, beq_iff_eq,
      ScriptContext.timeLock, decide_eq_true_eq] at hok
    exact ⟨hok.1.2, hok.1.1.1, hok.1.1.2⟩

/-- Witness for C2: a concrete contract with deadline 10 evaluated at chain
time 5 rejects the refund even though the key and signature are valid. -/
theorem refundExpired_deadline_and_funder_guard_witness :
    BountyContract.refundExpired
      { funderAddr := pubKey2Addr 7, issueId := 42, repoOwner := 2,
        certifierPubKey := 3, deadline := 10 }
      { checkSig := fun _ _ => true, utxoValue := 100,
        hashOutputs := hash256Outputs [buildPublicKeyHashOutput (pubKey2Addr 7) 100],
        chainTime := 5 }
      1 7 = false :=
  (refundExpired_deadline_and_funder_guard _ _ _ _).1 (by decide)

/-- Claim C3: if at least one of the three required signatures of paySolver
— solver against the solver-supplied key, owner against repoOwner, certifier
against certifierPubKey — fails to verify, the transition rejects the
spending transaction, even when the other two verify. -/
theorem paySolver_rejects_missing_signature (c : BountyContract)
    (ctx : ScriptContext) (solverSig solverPubKey ownerSig certifierSig : Nat)
    (h : ctx.checkSig solverSig solverPubKey = false ∨
         ctx.checkSig ownerSig c.repoOwner = false ∨
         ctx.checkSig certifierSig c.certifierPubKey = false) :
    c.paySolver ctx solverSig solverPubKey ownerSig certifierSig = false := by
  rcases h with h | h | h <;> simp [BountyContract.paySolver, h]

/-- Witness for C3: with a verifier that accepts exactly signature 1, an
invalid solver signature 0 is rejected even though the owner and certifier
signatures 1 are both valid. -/
theorem paySolver_rejects_missing_signature_witness :
    BountyContract.paySolver
      { funderAddr := 5, issueId := 42, repoOwner := 2,
        certifierPubKey := 3, deadline := 10 }
      { checkSig := fun s _ => s == 1, utxoValue := 100,
        hashOutputs := 0, chainTime := 0 }
      0 9 1 1 = false :=
  paySolver_rejects_missing_signature _ _ _ _ _ _ (Or.inl (by decide))

/-- Counterexample to C4 as stated: paySolver runs under
SigHash.ANYONECANPAY_SINGLE, where ctx.hashOutputs commits only to the
output at the spending input's index, so a spending transaction carrying
the required full-value solver payout at that index plus an extra output
passes paySolver when all three signatures verify — the extra output is not
rejected. -/
theorem paySolver_accepts_extra_output :
    BountyContract.paySolver
      { funderAddr := 5, issueId := 42, repoOwner := 2,
        certifierPubKey := 3, deadline := 10 }
      { checkSig := fun _ _ => true, utxoValue := 100,
        hashOutputs := hashOutputsFor SigHashMode.anyonecanpaySingle
          [buildPublicKeyHashOutput (pubKey2Addr 7) 100,
           { satoshis := 1, lockAddr := 9 }] 0,
        chainTime := 0 }
      1 7 1 1 = true ∧
    [buildPublicKeyHashOutput (pubKey2Addr 7) 100,
     ({ satoshis := 1, lockAddr := 9 } : TxOutput)] ≠
      [buildPublicKeyHashOutput (pubKey2Addr 7) 100] := by
  constructor
  · decide
  · decide

/-- Claim C4 (amended): refundExpired and cancelBounty run under the default
SigHash.ALL, where ctx.hashOutputs commits to the entire output list, so any
spending transaction whose output set differs from the single required
refund payout is rejected by both, whatever the signatures; paySolver runs
under SigHash.ANYONECANPAY_SINGLE, where ctx.hashOutputs commits only to the
output at the spending input's index, so it rejects exactly the transactions
whose output at that index is not the full-value solver payout — extra
outputs at other indices are not constrained. -/
theorem outputs_hash_commitment_per_sighash (c : BountyContract)
    (ctx : ScriptContext) (outs : List TxOutput) (inputIndex : Nat) :
    (ctx.hashOutputs = hashOutputsFor SigHashMode.all outs inputIndex →
      (∀ funderSig funderPubKey,
        outs ≠ [buildPublicKeyHashOutput c.funderAddr ctx.utxoValue] →
        c.refundExpired ctx funderSig funderPubKey = false) ∧
      (∀ funderSig funderPubKey ownerSig,
        outs ≠ [buildPublicKeyHashOutput c.funderAddr ctx.utxoValue] →
        c.cancelBounty ctx funderSig funderPubKey ownerSig = false)) ∧
    (ctx.hashOutputs = hashOutputsFor SigHashMode.anyonecanpaySingle outs inputIndex →
      ∀ solverSig solverPubKey ownerSig certifierSig,
        outs[inputIndex]? ≠
          some (buildPublicKeyHashOutput (pubKey2Addr solverPubKey) ctx.utxoValue) →
        c.paySolver ctx solverSig solverPubKey ownerSig certifierSig = false) := by
  constructor
  · intro hctx
    have hall : ctx.hashOutputs = hash256Outputs outs := hctx
    have key : ∀ o : TxOutput, outs ≠ [o] →
        (hash256Outputs [o] == ctx.hashOutputs) = false := by
      intro o hne
      rw [hall, beq_eq_false_iff_ne]
      intro heq
      exact hne (hash256Outputs_injective heq).symm
    refine ⟨?_, ?_⟩
    · intro funderSig funderPubKey hne
      simp [BountyContract.refundExpired, key _ hne]
    · intro funderSig funderPubKey ownerSig hne
      simp [BountyContract.cancelBounty, key _ hne]
  · intro hctx solverSig solverPubKey ownerSig certifierSig hne
    cases hidx : outs[inputIndex]? with
    | none =>
      have h0 : ctx.hashOutputs = 0 := by
        rw [hctx]
        simp [hashOutputsFor, hidx]
      have hfalse : (hash256Outputs
          [buildPublicKeyHashOutput (pubKey2Addr solverPubKey) ctx.utxoValue]
          == ctx.hashOutputs) = false := by
        rw [h0, beq_eq_false_iff_ne]
        simp [hash256Outputs]
      simp [BountyContract.paySolver, hfalse]
    | some o =>
      have ho : ctx.hashOutputs = hash256Outputs [o] := by
        rw [hctx]
        simp [hashOutputsFor, hidx]
      have hfalse : (hash256Outputs
          [buildPublicKeyHashOutput (pubKey2Addr solverPubKey) ctx.utxoValue]
          == ctx.hashOutputs) = false := by
        rw [ho, beq_eq_false_iff_ne]
        intro heq
        have h1 := hash256Outputs_injective heq
        simp only [List.cons.injEq, and_true] at h1
        exact hne (by rw [hidx, h1])
      simp [BountyContract.paySolver, hfalse]

/-- Witness for the amended C4: under SigHash.ALL, a spending transaction
carrying the refund payout plus an extra output is rejected by
refundExpired even though every signature check passes and the deadline has
passed. -/
theorem outputs_hash_commitment_per_sighash_witness :
    BountyContract.refundExpired
      { funderAddr := 5, issueId := 42, repoOwner := 2,
        certifierPubKey := 3, deadline := 10 }
      { checkSig := fun _ _ => true, utxoValue := 100,
        hashOutputs := hashOutputsFor SigHashMode.all
          [buildPublicKeyHashOutput 5 100, { satoshis := 1, lockAddr := 9 }] 0,
        chainTime := 50 }
      1 7 = false :=
  ((outputs_hash_commitment_per_sighash _ _
      [buildPublicKeyHashOutput 5 100, { satoshis := 1, lockAddr := 9 }] 0).1
    rfl).1 1 7 (by decide)

/-- BountyTopicManager.isBountyLockingScript: admits a script exactly when it
is non-empty and its first byte is 0x76 (OP_DUP). This is the whole output
classifier of the source; it returns only this boolean and extracts nothing
else from the script. -/
def isBountyLockingScript (script : List Nat) : Bool :=
  match script with
  | [] => false
  | b :: _ => b == 118

/-- A parameter set that no recovery function over a single boolean can
produce for both boolean values: its funder address strictly exceeds the
funder addresses recovered from true and from false. -/
def recoverGap (recover : Bool → BountyContract) : BountyContract :=
  { funderAddr := (recover true).funderAddr + (recover false).funderAddr + 1,
    issueId := 0, repoOwner := 0, certifierPubKey := 0, deadline := 0 }

lemma recoverGap_ne_true (recover : Bool → BountyContract) :
    recoverGap recover ≠ recover true := by
  intro h
  have := congrArg BountyContract.funderAddr h
  simp only [recoverGap] at this
  omega

lemma recoverGap_ne_false (recover : Bool → BountyContract) :
    recoverGap recover ≠ recover false := by
  intro h
  have := congrArg BountyContract.funderAddr h
  simp only [recoverGap] at this
  omega

/-- Claim C5 (refuted): however contract instances serialize to locking
scripts and however one tries to read parameters back from the classifier's
result, some parameter set fails the round-trip: the classifier's entire
output is a single boolean, which cannot determine the five instance
parameters. -/
theorem classifier_cannot_recover_parameters
    (scriptOf : BountyContract → List Nat) (recover : Bool → BountyContract) :
    ∃ P : BountyContract, recover (isBountyLockingScript (scriptOf P)) ≠ P := by
  refine ⟨recoverGap recover, ?_⟩
  cases h : isBountyLockingScript (scriptOf (recoverGap recover))
  · exact fun hc => recoverGap_ne_false recover hc.symm
  · exact fun hc => recoverGap_ne_true recover hc.symm

/-- One MongoDB document of the bounties collection. Fields written by some
paths and not others are Option-valued; an absent field is none. The
identityKey field is the one the lookup filter queries; no writer in the
source ever sets it. -/
structure BountyDoc where
  txid : String
  outputIndex : Nat
  script : List Nat
  topic : String
  status : String
  createdAt : Nat
  completedAt : Option Nat
  issueId : Option String
  repoOwner : Option String
  funderIdentityKey : Option String
  repoOwnerIdentityKey : Option String
  identityKey : Option String
  solverIdentityKey : Option String
  solutionPullRequestId : Option String
  amount : Option Nat
  deadline : Option Nat
deriving DecidableEq

/-- The bounties collection, an ordered list of documents. -/
abbrev Store := List BountyDoc

/-- The unique key of createMongoDBIndexes: (txid, outputIndex, topic). -/
def docKey (d : BountyDoc) : String × Nat × String := (d.txid, d.outputIndex, d.topic)

/-- Whether some document of the store carries the given unique key. -/
def hasKey (s : Store) (k : String × Nat × String) : Bool :=
  s.any fun d => decide (docKey d = k)

/-- The document inserted by BountyLookupService.outputAdded: the key
fields, the script, status active and a creation time; every other field is
absent. -/
def outputAddedDoc (txid : String) (outputIndex : Nat) (script : List Nat)
    (topic : String) (now : Nat) : BountyDoc :=
  { txid := txid, outputIndex := outputIndex, script := script, topic := topic,
    status := strActive, createdAt := now, completedAt := none,
    issueId := none, repoOwner := none, funderIdentityKey := none,
    repoOwnerIdentityKey := none, identityKey := none,
    solverIdentityKey := none, solutionPullRequestId := none,
    amount := none, deadline := none }

/-- BountyLookupService.outputAdded: insertOne of the new document. Under
the unique index of createMongoDBIndexes a duplicate key makes insertOne
throw; the handler catches and swallows that error, so the store is
unchanged in that case. -/
def outputAdded (s : Store) (txid : String) (outputIndex : Nat)
    (script : List Nat) (topic : String) (now : Nat) : Store :=
  if hasKey s (txid, outputIndex, topic) then s
  else s ++ [outputAddedDoc txid outputIndex script topic now]

/-- updateOne: rewrite the first document matching the predicate. -/
def updateFirst : Store → (BountyDoc → Bool) → (BountyDoc → BountyDoc) → Store
| [], _, _ => []
| d :: rest, p, f => if p d then f d :: rest else d :: updateFirst rest p f

/-- deleteOne: remove the first document matching the predicate. -/
def deleteFirst : Store → (BountyDoc → Bool) → Store
| [], _ => []
| d :: rest, p => if p d then rest else d :: deleteFirst rest p

/-- The filter document used by the three lookup-service handlers. -/
def keyMatch (txid : String) (outputIndex : Nat) (topic : String)
    (d : BountyDoc) : Bool :=
  decide (docKey d = (txid, outputIndex, topic))

/-- BountyLookupService.outputSpent: updateOne on the key, setting status to
completed and a completion time, unconditionally. -/
def outputSpent (s : Store) (txid : String) (outputIndex : Nat)
    (topic : String) (now : Nat) : Store :=
  updateFirst s (keyMatch txid outputIndex topic)
    (fun d => { d with status := strCompleted, completedAt := some now })

/-- BountyLookupService.outputDeleted: deleteOne on the key. -/
def outputDeleted (s : Store) (txid : String) (outputIndex : Nat)
    (topic : String) : Store :=
  deleteFirst s (keyMatch txid outputIndex topic)

lemma hasKey_append (s l : Store) (k : String × Nat × String) :
    hasKey (s ++ l) k = (hasKey s k || hasKey l k) := by
  simp [hasKey]

lemma docKey_outputAddedDoc (txid : String) (outputIndex : Nat)
    (script : List Nat) (topic : String) (now : Nat) :
    docKey (outputAddedDoc txid outputIndex script topic now)
      = (txid, outputIndex, topic) := rfl

/-- Claim C6: calling outputAdded a second time with the same
(txid, outputIndex, topic) key is absorbed with no error: the resulting
store — record count and every field of every record — equals the store
after the first call, whatever script and time the second call carries. -/
theorem outputAdded_idempotent (s : Store) (txid : String) (outputIndex : Nat)
    (script : List Nat) (topic : String) (t1 : Nat)
    (script2 : List Nat) (t2 : Nat) :
    outputAdded (outputAdded s txid outputIndex script topic t1)
      txid outputIndex script2 topic t2
    = outputAdded s txid outputIndex script topic t1 := by
  by_cases h : hasKey s (txid, outputIndex, topic)
  · simp [outputAdded, h]
  · have h2 : hasKey (s ++ [outputAddedDoc txid outputIndex script topic t1])
        (txid, outputIndex, topic) = true := by
      simp [hasKey_append, hasKey, docKey_outputAddedDoc]
    simp [outputAdded, h, h2]

lemma not_hasKey_forall {s : Store} {k : String × Nat × String}
    (h : hasKey s k = false) : ∀ d ∈ s, ¬ docKey d = k := by
  intro d hd
  simp only [hasKey, List.any_eq_false, decide_eq_true_eq] at h
  exact h d hd

lemma updateFirst_append_of_no_match (s l : Store) (p : BountyDoc → Bool)
    (f : BountyDoc → BountyDoc) (h : ∀ d ∈ s, p d = false) :
    updateFirst (s ++ l) p f = s ++ updateFirst l p f := by
  induction s with
  | nil => rfl
  | cons d rest ih =>
    have hd : p d = false := h d (List.mem_cons_self d rest)
    simp only [List.cons_append, updateFirst, hd, Bool.false_eq_true, if_false,
      List.cons.injEq, true_and]
    exact ih fun x hx => h x (List.mem_cons_of_mem d hx)

lemma deleteFirst_append_of_no_match (s l : Store) (p : BountyDoc → Bool)
    (h : ∀ d ∈ s, p d = false) :
    deleteFirst (s ++ l) p = s ++ deleteFirst l p := by
  induction s with
  | nil => rfl
  | cons d rest ih =>
    have hd : p d = false := h d (List.mem_cons_self d rest)
    simp only [List.cons_append, deleteFirst, hd, Bool.false_eq_true, if_false,
      List.cons.injEq, true_and]
    exact ih fun x hx => h x (List.mem_cons_of_mem d hx)

/-- Claim C7: outputDeleted removes the matching record unconditionally,
regardless of its current status or other fields; in particular, on a store
that does not yet hold the key, outputAdded followed by outputSpent followed
by outputDeleted returns the store exactly as it was — the record is removed
even though its status is the terminal value written by outputSpent. -/
theorem outputDeleted_unconditional :
    (∀ (s : Store) (txid : String) (outputIndex : Nat) (script : List Nat)
       (topic : String) (t1 t2 : Nat),
       hasKey s (txid, outputIndex, topic) = false →
       outputDeleted
         (outputSpent (outputAdded s txid outputIndex script topic t1)
           txid outputIndex topic t2)
         txid outputIndex topic = s) ∧
    (∀ (s1 s2 : Store) (d : BountyDoc),
       hasKey s1 (docKey d) = false →
       outputDeleted (s1 ++ d :: s2) d.txid d.outputIndex d.topic = s1 ++ s2) := by
  constructor
  · intro s txid outputIndex script topic t1 t2 h
    have hmiss : ∀ d ∈ s, keyMatch txid outputIndex topic d = false := by
      intro d hd
      have := not_hasKey_forall h d hd
      simp [keyMatch, this]
    rw [outputAdded, if_neg (by simp [h])]
    rw [outputSpent, updateFirst_append_of_no_match _ _ _ _ hmiss]
    rw [outputDeleted, deleteFirst_append_of_no_match _ _ _
      (by intro d hd; exact hmiss d hd)]
    have hkm : keyMatch txid outputIndex topic
        (outputAddedDoc txid outputIndex script topic t1) = true := by
      simp [keyMatch, docKey_outputAddedDoc]
    simp [updateFirst, deleteFirst, hkm, keyMatch, docKey,
      outputAddedDoc]
  · intro s1 s2 d h
    have hmiss : ∀ x ∈ s1, keyMatch d.txid d.outputIndex d.topic x = false := by
      intro x hx
      have := not_hasKey_forall h x hx
      simp only [docKey] at this
      simp [keyMatch, docKey, this]
    rw [outputDeleted, deleteFirst_append_of_no_match _ _ _ hmiss]
    simp [deleteFirst, keyMatch, docKey]

/-- Witness for C7: from the empty store, add–spend–delete on a concrete key
returns the empty store, and the generic segment form deletes a record whose
status is expired. -/
theorem outputDeleted_unconditional_witness :
    outputDeleted
      (outputSpent (outputAdded [] strExpired 0 [118] strTopicBounty 1)
        strExpired 0 strTopicBounty 2)
      strExpired 0 strTopicBounty = [] :=
  outputDeleted_unconditional.1 [] strExpired 0 [118] strTopicBounty 1 2 rfl

/-- The concrete record of the C1 failing input: a bounty whose status was
set to expired by the explicit refund workflow. -/
def expiredRecord : BountyDoc :=
  { outputAddedDoc strExpired 0 [] strTopicBounty 0 with status := strExpired }

/-- Claim C1 (code divergence): the generic outputSpent handler, invoked on
a record whose status is the terminal value expired, overwrites that status
with completed — the source updateOne sets status to completed
unconditionally, with no guard on the current status. -/
theorem outputSpent_overwrites_terminal_status :
    expiredRecord.status = strExpired ∧
    (outputSpent [expiredRecord] strExpired 0 strTopicBounty 7).map
      BountyDoc.status = [strCompleted] := by
  exact ⟨rfl, rfl⟩

/-- One document of the github-identities collection: a GitHub username
bound to a BSV identity key. -/
structure GitHubId where
  username : String
  identityKey : String
deriving DecidableEq

/-- GitHubIdentityService.getGitHubIdentityByUsername / the lookup service's
findOne on the github-identities collection: the first document whose
username matches. -/
def findIdentity (ids : List GitHubId) (u : String) : Option GitHubId :=
  ids.find? fun g => g.username == u

/-- The query object of a LookupQuestion for the bounty service; an absent
property is none. -/
structure LookupQuery where
  issueId : Option String
  repoOwner : Option String
  githubUsername : Option String
  status : Option String

/-- JS truthiness of an optional string property: an absent property and the
empty string are both falsy, so the source's if-guards skip them. -/
def strPresent : Option String → Option String
| some v => if v = "" then none else some v
| none => none

/-- The MongoDB filter document assembled by BountyLookupService.lookup. -/
structure MongoQuery where
  topic : String
  issueId : Option String
  repoOwner : Option String
  status : Option String
  identityKey : Option String

/-- Whether a bounty document matches the filter: the fixed topic, and each
present filter field must equal the document's field. A document lacking a
filtered field does not match a concrete value. -/
def matchesQuery (mq : MongoQuery) (d : BountyDoc) : Bool :=
  (d.topic == mq.topic) &&
  (match mq.issueId with | some v => d.issueId == some v | none => true) &&
  (match mq.repoOwner with | some v => d.repoOwner == some v | none => true) &&
  (match mq.status with | some v => d.status == v | none => true) &&
  (match mq.identityKey with | some v => d.identityKey == some v | none => true)

/-- A lookup result: either a LookupAnswer carrying an output list, or a
LookupFormula carrying (txid, outputIndex) references. -/
inductive LookupResult
| answer (outputs : List (String × Nat))
| formula (refs : List (String × Nat))
deriving DecidableEq

/-- The references returned for the matching documents: txid and
outputIndex of each. -/
def lookupRefs (s : Store) (mq : MongoQuery) : List (String × Nat) :=
  (s.filter (matchesQuery mq)).map fun d => (d.txid, d.outputIndex)

/-- BountyLookupService.lookup: builds the Mongo filter from the present
query fields over the fixed topic; a githubUsername filter is first resolved
against the github-identities collection — an unknown username returns an
empty output list, a known one adds its identityKey to the filter. -/
def lookup (ids : List GitHubId) (s : Store) (q : LookupQuery) : LookupResult :=
  let issueId := strPresent q.issueId
  let repoOwner := strPresent q.repoOwner
  let status := strPresent q.status
  match strPresent q.githubUsername with
  | some u =>
    match findIdentity ids u with
    | some gid =>
        .formula (lookupRefs s
          { topic := strTopicBounty, issueId := issueId, repoOwner := repoOwner,
            status := status, identityKey := some gid.identityKey })
    | none => .answer []
  | none =>
      .formula (lookupRefs s
        { topic := strTopicBounty, issueId := issueId, repoOwner := repoOwner,
          status := status, identityKey := none })

/-- Claim C8: a lookup naming a GitHub username unknown to the identity
store returns an empty output list rather than an error, and a known
username is first resolved to its identity key, the records then being
filtered by that key (together with the other present filters). -/
theorem lookup_resolves_username_first (ids : List GitHubId) (s : Store)
    (q : LookupQuery) (u : String) (hu : strPresent q.githubUsername = some u) :
    (findIdentity ids u = none → lookup ids s q = .answer []) ∧
    (∀ gid, findIdentity ids u = some gid →
      lookup ids s q = .formula (lookupRefs s
        { topic := strTopicBounty, issueId := strPresent q.issueId,
          repoOwner := strPresent q.repoOwner, status := strPresent q.status,
          identityKey := some gid.identityKey })) := by
  constructor
  · intro hnone
    simp [lookup, hu, hnone]
  · intro gid hsome
    simp [lookup, hu, hsome]

/-- Concrete username used by the witnesses. -/
def strAlice : String := "alice"

/-- Concrete identity key used by the witnesses. -/
def strKey1 : String := "key1"

/-- Concrete txid used by the witnesses. -/
def strT : String := "t"

/-- Concrete pull-request id used by the witnesses. -/
def strPr : String := "pr"

/-- Witness for C8: looking up a username over an empty identity store
returns the empty output list, not an error. -/
theorem lookup_resolves_username_first_witness :
    lookup [] []
      { issueId := none, repoOwner := none, githubUsername := some strAlice,
        status := none } = .answer [] :=
  (lookup_resolves_username_first [] []
    { issueId := none, repoOwner := none, githubUsername := some strAlice,
      status := none } strAlice (by decide)).1 rfl

/-- Error message rethrown by BountyService.payBounty on any failure. -/
def errPay : String := "Failed to pay bounty"

/-- Error message rethrown by BountyService.refundExpiredBounty. -/
def errRefund : String := "Failed to refund expired bounty"

/-- Error message rethrown by BountyService.cancelBounty. -/
def errCancel : String := "Failed to cancel bounty"

/-- findOne on the bounties collection filtered by txid and outputIndex
only, as the three workflow methods do. -/
def findDocOut (s : Store) (txid : String) (outputIndex : Nat) : Option BountyDoc :=
  s.find? fun d => decide (d.txid = txid ∧ d.outputIndex = outputIndex)

/-- updateOne on the bounties collection filtered by txid and outputIndex. -/
def updateFirstOut (s : Store) (txid : String) (outputIndex : Nat)
    (f : BountyDoc → BountyDoc) : Store :=
  updateFirst s (fun d => decide (d.txid = txid ∧ d.outputIndex = outputIndex)) f

/-- The $set document written by payBounty after a successful spend. -/
def payUpdate (solverKey prId : String) (now : Nat) (d : BountyDoc) : BountyDoc :=
  { d with status := strCompleted, solverIdentityKey := some solverKey,
           solutionPullRequestId := some prId, completedAt := some now }

/-- The $set document written by refundExpiredBounty after a successful
spend. -/
def refundUpdate (now : Nat) (d : BountyDoc) : BountyDoc :=
  { d with status := strExpired, completedAt := some now }

/-- The $set document written by the cancel workflow after a successful
spend. -/
def cancelUpdate (now : Nat) (d : BountyDoc) : BountyDoc :=
  { d with status := strCanceled, completedAt := some now }

/-- BountyService.payBounty. The external wallet and ledger interaction
(signing and the paySolver contract call) is summarized by the spend
argument: ok with the payment txid when the ledger accepts the spending
transaction, error when the contract method rejects it. In-repo steps in
source order: fetch the record and require status active, resolve the
solver then the repo owner against the identity store, restore the contract
instance (which reads the record's issueId and deadline; a record missing
them — one written by outputAdded — makes that step throw), call the
contract, and only then write the terminal status. Every failure is caught
and rethrown as the fixed error with the store untouched. -/
def BountyService.payBounty (ids : List GitHubId) (s : Store) (txid : String)
    (outputIndex : Nat) (solverGithubUsername : String)
    (solutionPullRequestId : String) (spend : Except String String)
    (now : Nat) : Except String String × Store :=
  match findDocOut s txid outputIndex with
  | none => (.error errPay, s)
  | some bounty =>
    if bounty.status = strActive then
      match findIdentity ids solverGithubUsername with
      | none => (.error errPay, s)
      | some solverIdentity =>
        match bounty.repoOwner with
        | none => (.error errPay, s)
        | some ro =>
          match findIdentity ids ro with
          | none => (.error errPay, s)
          | some _ =>
            match bounty.issueId, bounty.deadline with
            | some _, some _ =>
              match spend with
              | .error _ => (.error errPay, s)
              | .ok payTxid =>
                (.ok payTxid,
                 updateFirstOut s txid outputIndex
                   (payUpdate solverIdentity.identityKey solutionPullRequestId now))
            | _, _ => (.error errPay, s)
    else (.error errPay, s)

/-- BountyService.refundExpiredBounty, with the external interaction
summarized by spend as in payBounty. In source order: fetch the record and
require status active; reject when the current time is before the deadline
(the JS comparison against an absent deadline is false, so that record
falls through to the restore step, which then throws on the absent field);
restore the instance, which reads issueId, repoOwnerIdentityKey — a field
no writer ever sets, modeled as the record carrying it — and deadline;
call the contract; only then write status expired. -/
def BountyService.refundExpiredBounty (s : Store) (txid : String)
    (outputIndex : Nat) (spend : Except String String) (now : Nat) :
    Except String String × Store :=
  match findDocOut s txid outputIndex with
  | none => (.error errRefund, s)
  | some bounty =>
    if bounty.status = strActive then
      if (match bounty.deadline with
          | some dl => decide (now < dl)
          | none => false) then
        (.error errRefund, s)
      else
        match bounty.issueId, bounty.repoOwnerIdentityKey, bounty.deadline with
        | some _, some _, some _ =>
          match spend with
          | .error _ => (.error errRefund, s)
          | .ok refundTxid =>
            (.ok refundTxid, updateFirstOut s txid outputIndex (refundUpdate now))
        | _, _, _ => (.error errRefund, s)
    else (.error errRefund, s)

/-- BountyService.cancelBounty, with the external interaction summarized by
spend as in payBounty. In source order: fetch the record and require status
active, resolve the repo owner against the identity store, restore the
instance (reads issueId and deadline), call the contract, and only then
write status canceled. -/
def BountyService.cancelBounty (ids : List GitHubId) (s : Store)
    (txid : String) (outputIndex : Nat) (spend : Except String String)
    (now : Nat) : Except String String × Store :=
  match findDocOut s txid outputIndex with
  | none => (.error errCancel, s)
  | some bounty =>
    if bounty.status = strActive then
      match bounty.repoOwner with
      | none => (.error errCancel, s)
      | some ro =>
        match findIdentity ids ro with
        | none => (.error errCancel, s)
        | some _ =>
          match bounty.issueId, bounty.deadline with
          | some _, some _ =>
            match spend with
            | .error _ => (.error errCancel, s)
            | .ok cancelTxid =>
              (.ok cancelTxid, updateFirstOut s txid outputIndex (cancelUpdate now))
          | _, _ => (.error errCancel, s)
    else (.error errCancel, s)

lemma payBounty_shape (ids : List GitHubId) (s : Store) (txid : String)
    (outputIndex : Nat) (solverGithubUsername solutionPullRequestId : String)
    (spend : Except String String) (now : Nat) :
    BountyService.payBounty ids s txid outputIndex solverGithubUsername
      solutionPullRequestId spend now = (.error errPay, s) ∨
    ∃ t sk, spend = .ok t ∧
      BountyService.payBounty ids s txid outputIndex solverGithubUsername
        solutionPullRequestId spend now
      = (.ok t, updateFirstOut s txid outputIndex
          (payUpdate sk solutionPullRequestId now)) := by
  unfold BountyService.payBounty
  repeat' split
  all_goals first
    | exact Or.inl rfl
    | exact Or.inr ⟨_, _, rfl, rfl⟩

lemma refundExpiredBounty_shape (s : Store) (txid : String) (outputIndex : Nat)
    (spend : Except String String) (now : Nat) :
    BountyService.refundExpiredBounty s txid outputIndex spend now
      = (.error errRefund, s) ∨
    ∃ t, spend = .ok t ∧
      BountyService.refundExpiredBounty s txid outputIndex spend now
      = (.ok t, updateFirstOut s txid outputIndex (refundUpdate now)) := by
  unfold BountyService.refundExpiredBounty
  repeat' split
  all_goals first
    | exact Or.inl rfl
    | exact Or.inr ⟨_, rfl, rfl⟩

lemma cancelBounty_shape (ids : List GitHubId) (s : Store) (txid : String)
    (outputIndex : Nat) (spend : Except String String) (now : Nat) :
    BountyService.cancelBounty ids s txid outputIndex spend now
      = (.error errCancel, s) ∨
    ∃ t, spend = .ok t ∧
      BountyService.cancelBounty ids s txid outputIndex spend now
      = (.ok t, updateFirstOut s txid outputIndex (cancelUpdate now)) := by
  unfold BountyService.cancelBounty
  repeat' split
  all_goals first
    | exact Or.inl rfl
    | exact Or.inr ⟨_, rfl, rfl⟩

/-- Claim C9: for each workflow transition, any failure before the spending
transaction succeeds — record missing or not active, unregistered identity,
deadline not yet reached, contract rejection — surfaces as an error with the
stored record untouched, and the store changes only on success, with the
spending transaction accepted and its txid returned: the terminal status is
written only after the spend has succeeded. -/
theorem workflow_atomicity (ids : List GitHubId) (s : Store) (txid : String)
    (outputIndex : Nat) (solverGithubUsername solutionPullRequestId : String)
    (spend : Except String String) (now : Nat) :
    (((BountyService.payBounty ids s txid outputIndex solverGithubUsername
         solutionPullRequestId spend now).1.isOk = false →
       (BountyService.payBounty ids s txid outputIndex solverGithubUsername
         solutionPullRequestId spend now).2 = s) ∧
     ((BountyService.payBounty ids s txid outputIndex solverGithubUsername
         solutionPullRequestId spend now).2 ≠ s →
       ∃ t, (BountyService.payBounty ids s txid outputIndex solverGithubUsername
         solutionPullRequestId spend now).1 = .ok t ∧ spend = .ok t)) ∧
    (((BountyService.refundExpiredBounty s txid outputIndex spend now).1.isOk = false →
       (BountyService.refundExpiredBounty s txid outputIndex spend now).2 = s) ∧
     ((BountyService.refundExpiredBounty s txid outputIndex spend now).2 ≠ s →
       ∃ t, (BountyService.refundExpiredBounty s txid outputIndex spend now).1 = .ok t ∧
         spend = .ok t)) ∧
    (((BountyService.cancelBounty ids s txid outputIndex spend now).1.isOk = false →
       (BountyService.cancelBounty ids s txid outputIndex spend now).2 = s) ∧
     ((BountyService.cancelBounty ids s txid outputIndex spend now).2 ≠ s →
       ∃ t, (BountyService.cancelBounty ids s txid outputIndex spend now).1 = .ok t ∧
         spend = .ok t)) := by
  refine ⟨⟨?_, ?_⟩, ⟨?_, ?_⟩, ⟨?_, ?_⟩⟩
  · intro h
    rcases payBounty_shape ids s txid outputIndex solverGithubUsername
      solutionPullRequestId spend now with hs | ⟨t, sk, hsp, hok⟩
    · rw [hs]
    · rw [hok] at h
      simp [Except.isOk, Except.toBool] at h
  · intro hchange
    rcases payBounty_shape ids s txid outputIndex solverGithubUsername
      solutionPullRequestId spend now with hs | ⟨t, sk, hsp, hok⟩
    · rw [hs] at hchange
      simp at hchange
    · exact ⟨t, by rw [hok], hsp⟩
  · intro h
    rcases refundExpiredBounty_shape s txid outputIndex spend now
      with hs | ⟨t, hsp, hok⟩
    · rw [hs]
    · rw [hok] at h
      simp [Except.isOk, Except.toBool] at h
  · intro hchange
    rcases refundExpiredBounty_shape s txid outputIndex spend now
      with hs | ⟨t, hsp, hok⟩
    · rw [hs] at hchange
      simp at hchange
    · exact ⟨t, by rw [hok], hsp⟩
  · intro h
    rcases cancelBounty_shape ids s txid outputIndex spend now
      with hs | ⟨t, hsp, hok⟩
    · rw [hs]
    · rw [hok] at h
      simp [Except.isOk, Except.toBool] at h
  · intro hchange
    rcases cancelBounty_shape ids s txid outputIndex spend now
      with hs | ⟨t, hsp, hok⟩
    · rw [hs] at hchange
      simp at hchange
    · exact ⟨t, by rw [hok], hsp⟩

/-- Witness for C9: paying against the empty store fails and leaves the
store empty. -/
theorem workflow_atomicity_witness :
    (BountyService.payBounty [] [] strT 0 strAlice strPr
      (Except.error errPay) 0).2 = [] :=
  (workflow_atomicity [] [] strT 0 strAlice strPr
    (Except.error errPay) 0).1.1 rfl

/-- The document BountyService.createBounty inserts after deploying the
contract: blockchain reference, bounty details — the funder's key stored
under funderIdentityKey — status active, amount, deadline and creation
time. No identityKey field is written. -/
def createBountyDoc (txid : String) (outputIndex : Nat) (script : List Nat)
    (issueId repoOwner funderIdentityKey : String) (amount deadline now : Nat) :
    BountyDoc :=
  { txid := txid, outputIndex := outputIndex, script := script,
    topic := strTopicBounty, status := strActive, createdAt := now,
    completedAt := none, issueId := some issueId, repoOwner := some repoOwner,
    funderIdentityKey := some funderIdentityKey, repoOwnerIdentityKey := none,
    identityKey := none, solverIdentityKey := none,
    solutionPullRequestId := none, amount := some amount,
    deadline := some deadline }

/-- The store effect of createBounty's insertOne. Under the unique index a
duplicate key throws (and createBounty rethrows rather than swallowing),
leaving the store unchanged; otherwise the document is appended. -/
def createBountyInsert (s : Store) (d : BountyDoc) : Store :=
  if hasKey s (docKey d) then s else s ++ [d]

/-- The stores reachable through the record-writing paths of the source:
the lookup-service handlers, createBounty's insert, and the three workflow
methods. -/
inductive WriterOnly : Store → Prop
| nil : WriterOnly []
| add (s : Store) (txid : String) (outputIndex : Nat) (script : List Nat)
    (topic : String) (now : Nat) :
    WriterOnly s → WriterOnly (outputAdded s txid outputIndex script topic now)
| create (s : Store) (txid : String) (outputIndex : Nat) (script : List Nat)
    (issueId repoOwner funderIdentityKey : String) (amount deadline now : Nat) :
    WriterOnly s →
    WriterOnly (createBountyInsert s
      (createBountyDoc txid outputIndex script issueId repoOwner
        funderIdentityKey amount deadline now))
| spent (s : Store) (txid : String) (outputIndex : Nat) (topic : String)
    (now : Nat) :
    WriterOnly s → WriterOnly (outputSpent s txid outputIndex topic now)
| deleted (s : Store) (txid : String) (outputIndex : Nat) (topic : String) :
    WriterOnly s → WriterOnly (outputDeleted s txid outputIndex topic)
| pay (ids : List GitHubId) (s : Store) (txid : String) (outputIndex : Nat)
    (solverGithubUsername solutionPullRequestId : String)
    (spend : Except String String) (now : Nat) :
    WriterOnly s →
    WriterOnly (BountyService.payBounty ids s txid outputIndex
      solverGithubUsername solutionPullRequestId spend now).2
| refund (s : Store) (txid : String) (outputIndex : Nat)
    (spend : Except String String) (now : Nat) :
    WriterOnly s →
    WriterOnly (BountyService.refundExpiredBounty s txid outputIndex spend now).2
| cancel (ids : List GitHubId) (s : Store) (txid : String) (outputIndex : Nat)
    (spend : Except String String) (now : Nat) :
    WriterOnly s →
    WriterOnly (BountyService.cancelBounty ids s txid outputIndex spend now).2

lemma mem_updateFirst {s : Store} {p : BountyDoc → Bool}
    {f : BountyDoc → BountyDoc} {d : BountyDoc}
    (h : d ∈ updateFirst s p f) : d ∈ s ∨ ∃ d0 ∈ s, d = f d0 := by
  induction s with
  | nil => simp [updateFirst] at h
  | cons d1 rest ih =>
    simp only [updateFirst] at h
    by_cases hp : p d1
    · rw [if_pos hp] at h
      rcases List.mem_cons.mp h with h | h
      · exact Or.inr ⟨d1, List.mem_cons_self d1 rest, h⟩
      · exact Or.inl (List.mem_cons_of_mem d1 h)
    · rw [if_neg hp] at h
      rcases List.mem_cons.mp h with h | h
      · exact Or.inl (h ▸ List.mem_cons_self d1 rest)
      · rcases ih h with h | ⟨d0, hd0, hfd⟩
        · exact Or.inl (List.mem_cons_of_mem d1 h)
        · exact Or.inr ⟨d0, List.mem_cons_of_mem d1 hd0, hfd⟩

lemma mem_deleteFirst {s : Store} {p : BountyDoc → Bool} {d : BountyDoc}
    (h : d ∈ deleteFirst s p) : d ∈ s := by
  induction s with
  | nil => simp [deleteFirst] at h
  | cons d1 rest ih =>
    simp only [deleteFirst] at h
    by_cases hp : p d1
    · rw [if_pos hp] at h
      exact List.mem_cons_of_mem d1 h
    · rw [if_neg hp] at h
      rcases List.mem_cons.mp h with h | h
      · exact h ▸ List.mem_cons_self d1 rest
      · exact List.mem_cons_of_mem d1 (ih h)

/-- No record-writing path of the source ever sets the identityKey field:
every document of a store built through those paths lacks it. -/
lemma writerOnly_identityKey {s : Store} (h : WriterOnly s) :
    ∀ d ∈ s, d.identityKey = none := by
  induction h with
  | nil => simp
  | add s txid outputIndex script topic now _ ih =>
    intro d hd
    unfold outputAdded at hd
    by_cases hk : hasKey s (txid, outputIndex, topic)
    · rw [if_pos hk] at hd
      exact ih d hd
    · rw [if_neg hk] at hd
      rcases List.mem_append.mp hd with hd | hd
      · exact ih d hd
      · simp only [List.mem_singleton] at hd
        rw [hd]
        rfl
  | create s txid outputIndex script issueId repoOwner funderIdentityKey
      amount deadline now _ ih =>
    intro d hd
    unfold createBountyInsert at hd
    by_cases hk : hasKey s (docKey (createBountyDoc txid outputIndex script
        issueId repoOwner funderIdentityKey amount deadline now))
    · rw [if_pos hk] at hd
      exact ih d hd
    · rw [if_neg hk] at hd
      rcases List.mem_append.mp hd with hd | hd
      · exact ih d hd
      · simp only [List.mem_singleton] at hd
        rw [hd]
        rfl
  | spent s txid outputIndex topic now _ ih =>
    intro d hd
    rcases mem_updateFirst hd with hd | ⟨d0, hd0, hfd⟩
    · exact ih d hd
    · rw [hfd]
      exact ih d0 hd0
  | deleted s txid outputIndex topic _ ih =>
    intro d hd
    exact ih d (mem_deleteFirst hd)
  | pay ids s txid outputIndex solverGithubUsername solutionPullRequestId
      spend now _ ih =>
    intro d hd
    rcases payBounty_shape ids s txid outputIndex solverGithubUsername
      solutionPullRequestId spend now with hs | ⟨t, sk, hsp, hok⟩
    · rw [hs] at hd
      exact ih d hd
    · rw [hok] at hd
      rcases mem_updateFirst hd with hd | ⟨d0, hd0, hfd⟩
      · exact ih d hd
      · rw [hfd]
        exact ih d0 hd0
  | refund s txid outputIndex spend now _ ih =>
    intro d hd
    rcases refundExpiredBounty_shape s txid outputIndex spend now
      with hs | ⟨t, hsp, hok⟩
    · rw [hs] at hd
      exact ih d hd
    · rw [hok] at hd
      rcases mem_updateFirst hd with hd | ⟨d0, hd0, hfd⟩
      · exact ih d hd
      · rw [hfd]
        exact ih d0 hd0
  | cancel ids s txid outputIndex spend now _ ih =>
    intro d hd
    rcases cancelBounty_shape ids s txid outputIndex spend now
      with hs | ⟨t, hsp, hok⟩
    · rw [hs] at hd
      exact ih d hd
    · rw [hok] at hd
      rcases mem_updateFirst hd with hd | ⟨d0, hd0, hfd⟩
      · exact ih d hd
      · rw [hfd]
        exact ih d0 hd0

/-- Claim C10: the lookup's githubUsername filter matches on the
identityKey field, which no record-writing path of the source ever sets, so
for any username the identity store does know, a lookup filtered by that
username returns the empty list over any store built by those writers. -/
theorem lookup_by_username_empty_on_written_records (ids : List GitHubId)
    (s : Store) (u : String) (gid : GitHubId) (hw : WriterOnly s)
    (hg : findIdentity ids u = some gid) (hu : ¬ u = "") :
    lookup ids s
      { issueId := none, repoOwner := none, githubUsername := some u,
        status := none } = .formula [] := by
  have hstr : strPresent (some u) = some u := by
    simp [strPresent, hu]
  have hnone : strPresent none = none := rfl
  have hkeys := writerOnly_identityKey hw
  have hrefs : lookupRefs s
      { topic := strTopicBounty, issueId := none, repoOwner := none,
        status := none, identityKey := some gid.identityKey } = [] := by
    unfold lookupRefs
    have hfil : s.filter (matchesQuery
        { topic := strTopicBounty, issueId := none, repoOwner := none,
          status := none, identityKey := some gid.identityKey }) = [] := by
      rw [List.filter_eq_nil_iff]
      intro d hd
      simp [matchesQuery, hkeys d hd]
    rw [hfil]
    rfl
  simp only [lookup, hstr, hg, hnone]
  rw [hrefs]

/-- Witness for C10: with alice registered in the identity store and a
store holding one record written by outputAdded, a lookup by alice's
username returns the empty formula. -/
theorem lookup_by_username_empty_on_written_records_witness :
    lookup [{ username := strAlice, identityKey := strKey1 }]
      (outputAdded [] strT 0 [118] strTopicBounty 0)
      { issueId := none, repoOwner := none, githubUsername := some strAlice,
        status := none } = .formula [] :=
  lookup_by_username_empty_on_written_records
    [{ username := strAlice, identityKey := strKey1 }]
    (outputAdded [] strT 0 [118] strTopicBounty 0) strAlice
    { username := strAlice, identityKey := strKey1 }
    (WriterOnly.add [] strT 0 [118] strTopicBounty 0 WriterOnly.nil)
    rfl (by decide)
